import Mathlib

/-!
Verification of the EBD record-keeping API (src/app.py) against its
specification.  The Flask handlers are shallowly embedded as pure Lean
functions over an explicit store; JSON request bodies become the `JVal`
type, Python exceptions become `Except.error`, and the database commit
boundary (including the constraints declared on the SQLAlchemy models:
the `status_aluno` enum, unique class names, unique usernames and
foreign keys to `classes.id`) is modelled by an explicit check at commit
time.  Uncommitted session mutations are discarded when a handler
returns early, matching Flask-SQLAlchemy session teardown (rollback
without commit).  `created_at` / `updated_at` bookkeeping columns are
not modelled; `to_dict` in the source never exposes them.
-/

/-- Values of the JSON payloads handled by the API (request bodies, the
`presencas` JSON column, and response bodies).  JSON floats do not occur
in any claim and are not modelled. -/
inductive JVal where
  | jnull
  | jbool (b : Bool)
  | jint (n : Int)
  | jstr (s : String)
  | jarr (xs : List JVal)
  | jobj (fs : List (String × JVal))
deriving Repr

mutual

/-- Structural equality of JSON values (Python `==` restricted to the
shapes we model; used for the database unique constraint on
`classes.nome`). -/
def jvalBeq : JVal → JVal → Bool
  | .jnull, .jnull => true
  | .jbool a, .jbool b => a == b
  | .jint a, .jint b => a == b
  | .jstr a, .jstr b => a == b
  | .jarr a, .jarr b => jarrBeq a b
  | .jobj a, .jobj b => jobjBeq a b
  | _, _ => false

/-- Pointwise `jvalBeq` on JSON arrays. -/
def jarrBeq : List JVal → List JVal → Bool
  | [], [] => true
  | x :: xs, y :: ys => jvalBeq x y && jarrBeq xs ys
  | _, _ => false

/-- Pointwise `jvalBeq` on JSON objects (field order significant). -/
def jobjBeq : List (String × JVal) → List (String × JVal) → Bool
  | [], [] => true
  | (k1, v1) :: xs, (k2, v2) :: ys => k1 == k2 && jvalBeq v1 v2 && jobjBeq xs ys
  | _, _ => false

end

/-- Python truthiness of a JSON value (`bool(x)`): `None`, `False`, `0`,
`""`, `[]` and `{}` are falsy, everything else truthy. -/
def pyTruthy : JVal → Bool
  | .jnull => false
  | .jbool b => b
  | .jint n => n != 0
  | .jstr s => s != ""
  | .jarr xs => !xs.isEmpty
  | .jobj fs => !fs.isEmpty

/-- Lookup of a key in a JSON object (Python `dict` access; request
objects have no duplicate keys). -/
def objGet (fs : List (String × JVal)) (k : String) : Option JVal :=
  (fs.find? (fun p => p.1 == k)).map (fun p => p.2)

/-- Prefix test on character lists (helper for Python `in` on strings). -/
def startsWithL : List Char → List Char → Bool
  | [], _ => true
  | _ :: _, [] => false
  | n :: ns, h :: hs => n == h && startsWithL ns hs

/-- Substring test on character lists (Python `key in string`). -/
def containsSub : List Char → List Char → Bool
  | [], needle => needle.isEmpty
  | h :: hs, needle => startsWithL needle (h :: hs) || containsSub hs needle

/-- Python `k in data` for a string key `k`: key membership for dicts,
element membership for lists, substring test for strings, and a
`TypeError` for non-container values (including `None`). -/
def pyIn : JVal → String → Except String Bool
  | .jobj fs, k => .ok (objGet fs k).isSome
  | .jarr xs, k =>
      .ok (xs.any (fun v => match v with | .jstr s => s == k | _ => false))
  | .jstr s, k => .ok (containsSub s.data k.data)
  | _, _ => .error "TypeError: argument of type is not iterable"

/-- Python `data[k]` for a string key: value for dicts (`KeyError` when
absent), `TypeError` for every other shape. -/
def pyGetItem : JVal → String → Except String JVal
  | .jobj fs, k =>
      match objGet fs k with
      | some v => .ok v
      | none => .error ("KeyError: " ++ k)
  | _, _ => .error "TypeError: not subscriptable by str"

/-- Python `data.get(k)`: `None`-as-`none` for dicts, `AttributeError`
for non-dict values. -/
def pyDictGet : JVal → String → Except String (Option JVal)
  | .jobj fs, k => .ok (objGet fs k)
  | _, _ => .error "AttributeError: object has no attribute get"

/-- Truthiness of a `dict.get` result (`None` is falsy). -/
def pyTruthyOpt : Option JVal → Bool
  | none => false
  | some v => pyTruthy v

/-- Python `value == aluno_id` where `aluno_id` is an `int`: integers
compare by value and `True`/`False` equal `1`/`0`; any other JSON shape
(including `None` from a missing key) is unequal. -/
def pyEqIntOpt : Option JVal → Int → Bool
  | some (.jint n), i => n == i
  | some (.jbool b), i => (if b then (1 : Int) else 0) == i
  | _, _ => false

/-- Calendar date as produced by `datetime.strptime(s, "%Y-%m-%d")`. -/
structure Date where
  year : Nat
  month : Nat
  day : Nat
deriving Repr, DecidableEq

/-- Date comparison: lexicographic on (year, month, day), which is the
order Python `date` and the SQL `DATE` column use. -/
def dateLe (a b : Date) : Bool :=
  a.year < b.year ||
    (a.year == b.year &&
      (a.month < b.month || (a.month == b.month && a.day ≤ b.day)))

/-- Leap-year test of the Gregorian calendar. -/
def isLeap (y : Nat) : Bool :=
  y % 4 == 0 && (y % 100 != 0 || y % 400 == 0)

/-- Number of days of month `m` of year `y`. -/
def daysInMonth (y m : Nat) : Nat :=
  if m == 2 then (if isLeap y then 29 else 28)
  else if m == 4 || m == 6 || m == 9 || m == 11 then 30
  else 31

/-- Splitting a character list on a separator character (used to model
the `%Y-%m-%d` format of `strptime`). -/
def splitOnChar (sep : Char) : List Char → List (List Char)
  | [] => [[]]
  | c :: rest =>
      if c == sep then [] :: splitOnChar sep rest
      else
        match splitOnChar sep rest with
        | g :: gs => (c :: g) :: gs
        | [] => [[c]]

/-- Decimal value of a nonempty digit string. -/
def digitsToNat? : List Char → Option Nat
  | [] => none
  | cs => go cs 0
where
  go : List Char → Nat → Option Nat
    | [], acc => some acc
    | c :: rest, acc =>
        if c.isDigit then go rest (acc * 10 + (c.toNat - 48)) else none

/-- Parse of `datetime.strptime(s, "%Y-%m-%d")`: three dash-separated
digit groups (`%Y` up to four digits, `%m`/`%d` one or two), validated
against the calendar (Python rejects month 0/13, day 0 and days past the
month length, and years below 1); any other input raises `ValueError`,
modelled as `none`. -/
def parseDateStr (s : String) : Option Date :=
  match splitOnChar '-' s.data with
  | [ys, ms, ds] =>
      if ys.length ≤ 4 && ms.length ≤ 2 && ds.length ≤ 2 then
        match digitsToNat? ys, digitsToNat? ms, digitsToNat? ds with
        | some y, some m, some d =>
            if 1 ≤ y && 1 ≤ m && m ≤ 12 && 1 ≤ d && d ≤ daysInMonth y m then
              some ⟨y, m, d⟩
            else none
        | _, _, _ => none
      else none
  | _ => none

/-- Parse of `strptime` applied to a JSON value: non-strings raise
`TypeError`, which the handlers catch together with `ValueError`. -/
def parseDateJ : JVal → Option Date
  | .jstr s => parseDateStr s
  | _ => none

/-- Message detail (`str(e)`) attached to a date-format error. -/
def dateErrDetail : JVal → String
  | .jstr s => "time data " ++ s ++ " does not match format %Y-%m-%d"
  | _ => "strptime() argument 1 must be str"

/-- Decimal digit character. -/
def digitChar (n : Nat) : Char := Char.ofNat (48 + n)

/-- Decimal character expansion of a natural number (fuel-based; 20
digits cover every value the API serializes). -/
def natToChars : Nat → Nat → List Char
  | 0, _ => []
  | fuel + 1, n =>
      if n < 10 then [digitChar n]
      else natToChars fuel (n / 10) ++ [digitChar (n % 10)]

/-- Decimal string of a natural number. -/
def natToStr (n : Nat) : String := String.mk (natToChars 20 n)

/-- Left zero-padding to a given width (`strftime` zero-pads `%m`, `%d`
to 2 and `%Y` to 4). -/
def padZero (w : Nat) (s : String) : String :=
  String.mk (List.replicate (w - s.length) '0') ++ s

/-- Serialization `date.strftime("%Y-%m-%d")`. -/
def dateToStr (d : Date) : String :=
  padZero 4 (natToStr d.year) ++ "-" ++ padZero 2 (natToStr d.month) ++ "-" ++
    padZero 2 (natToStr d.day)


/-- Row of the `users` table (`User` model): id, unique username, salted
password hash. -/
structure User where
  id : Int
  username : String
  password_hash : String
deriving Repr, DecidableEq

/-- Row of the `classes` table (`Classe` model): id, unique name,
teacher.  The column types accept whatever the handlers assign, so the
mutable fields are JSON values. -/
structure Classe where
  id : Int
  nome : JVal
  professor : JVal
deriving Repr

/-- Row of the `alunos` table (`Aluno` model): id, name, birth date,
status (enum column `status_aluno`, default `MATRICULADO`), class
reference. -/
structure Aluno where
  id : Int
  nome : JVal
  data_nascimento : Date
  status : JVal
  classe_id : JVal
deriving Repr

/-- Row of the `frequencias` table (`Frequencia` model): id, class
reference, session date, five numeric tallies, and the JSON
`presencas` attendance-log column (SQL `NULL` is `jnull`). -/
structure Freq where
  id : Int
  classe_id : JVal
  data : Date
  total_biblia : JVal
  total_present : JVal
  total_absent : JVal
  total_visitors : JVal
  total_general : JVal
  presencas : JVal
deriving Repr

/-- Database state: the four tables created by `db.create_all()`. -/
structure Store where
  users : List User
  classes : List Classe
  alunos : List Aluno
  freqs : List Freq
deriving Repr

/-- Serialization `User.to_dict`. -/
def userToDict (u : User) : JVal :=
  .jobj [("id", .jint u.id), ("username", .jstr u.username)]

/-- Serialization `Classe.to_dict`. -/
def classeToDict (c : Classe) : JVal :=
  .jobj [("id", .jint c.id), ("nome", c.nome), ("professor", c.professor)]

/-- Serialization `Aluno.to_dict`. -/
def alunoToDict (a : Aluno) : JVal :=
  .jobj [("id", .jint a.id), ("nome", a.nome),
    ("data_nascimento", .jstr (dateToStr a.data_nascimento)),
    ("status", a.status), ("classe_id", a.classe_id)]

/-- Field list of `Frequencia.to_dict` (kept separate because the
history route appends a `presenca` key to it). -/
def freqToDictFields (f : Freq) : List (String × JVal) :=
  [("id", .jint f.id), ("classe_id", f.classe_id),
    ("data", .jstr (dateToStr f.data)),
    ("total_biblia", f.total_biblia), ("total_present", f.total_present),
    ("total_absent", f.total_absent), ("total_visitors", f.total_visitors),
    ("total_general", f.total_general), ("presencas", f.presencas)]

/-- Serialization `Frequencia.to_dict`. -/
def freqToDict (f : Freq) : JVal := .jobj (freqToDictFields f)

/-- HTTP response: status code and JSON body. -/
abbrev Response := Nat × JVal

/-- JSON error body with only a message. -/
def msgBody (m : String) : JVal := .jobj [("msg", .jstr m)]

/-- JSON error body with message and error detail. -/
def errBody (m e : String) : JVal :=
  .jobj [("msg", .jstr m), ("error", .jstr e)]

/-- Response of `get_or_404` when the id is absent (werkzeug abort;
only the 404 status is observable through the claims). -/
def resp404 : Response := (404, msgBody "Not Found")

/-- Fresh autoincrement id: strictly larger than every existing id. -/
def nextId (ids : List Int) : Int := ids.foldl max 0 + 1

/-- Lookup `Model.query.get(id)` / `filter_by(id=...)`. -/
def findClasse (cs : List Classe) (i : Int) : Option Classe :=
  cs.find? (fun c => c.id == i)

/-- Lookup of a student by primary key. -/
def findAluno (as_ : List Aluno) (i : Int) : Option Aluno :=
  as_.find? (fun a => a.id == i)

/-- Lookup of an attendance record by primary key. -/
def findFreq (fs : List Freq) (i : Int) : Option Freq :=
  fs.find? (fun f => f.id == i)

/-- Lookup `User.query.filter_by(username=value).first()`; the username
column is a string, so only string values can match. -/
def findUserByJ (us : List User) (v : JVal) : Option User :=
  match v with
  | .jstr s => us.find? (fun u => u.username == s)
  | _ => none

/-- Update-by-primary-key: replace the row with the given id. -/
def replaceClasse (cs : List Classe) (i : Int) (c2 : Classe) : List Classe :=
  cs.map (fun c => if c.id == i then c2 else c)

/-- Update-by-primary-key for students. -/
def replaceAluno (as_ : List Aluno) (i : Int) (a2 : Aluno) : List Aluno :=
  as_.map (fun a => if a.id == i then a2 else a)

/-- Update-by-primary-key for attendance records. -/
def replaceFreq (fs : List Freq) (i : Int) (f2 : Freq) : List Freq :=
  fs.map (fun f => if f.id == i then f2 else f)

/-- Row of `atualizar_classe` after applying the present fields. -/
def classeUpd (c : Classe) (fs : List (String × JVal)) : Classe :=
  { c with
    nome := (objGet fs "nome").getD c.nome
    professor := (objGet fs "professor").getD c.professor }

/-- Row of `atualizar_frequencia` after applying the present fields,
with `d` the session date to store. -/
def freqUpd (f : Freq) (fs : List (String × JVal)) (d : Date) : Freq :=
  { f with
    classe_id := (objGet fs "classe_id").getD f.classe_id
    data := d
    total_biblia := (objGet fs "total_biblia").getD f.total_biblia
    total_present := (objGet fs "total_present").getD f.total_present
    total_absent := (objGet fs "total_absent").getD f.total_absent
    total_visitors := (objGet fs "total_visitors").getD f.total_visitors
    total_general := (objGet fs "total_general").getD f.total_general
    presencas := (objGet fs "presencas").getD f.presencas }

/-- Enum constraint of the `status_aluno` column: exactly the two
values `MATRICULADO` and `DESMATRICULADO` are storable. -/
def alunoStatusOk (a : Aluno) : Bool :=
  match a.status with
  | .jstr s => s == "MATRICULADO" || s == "DESMATRICULADO"
  | _ => false

/-- Foreign-key constraint to `classes.id`. -/
def fkOk (v : JVal) (cs : List Classe) : Bool :=
  match v with
  | .jint n => cs.any (fun c => c.id == n)
  | _ => false

/-- Unique constraint on `classes.nome`. -/
def nomesUnique : List Classe → Bool
  | [] => true
  | c :: rest =>
      rest.all (fun c2 => !(jvalBeq c.nome c2.nome)) && nomesUnique rest

/-- Unique constraint on `users.username`. -/
def usernamesUnique : List User → Bool
  | [] => true
  | u :: rest => rest.all (fun u2 => u2.username != u.username) && usernamesUnique rest

/-- Constraints checked by the database at `db.session.commit()`: the
status enum, the foreign keys of students and attendance records, and
the unique columns. -/
def storeOk (st : Store) : Bool :=
  st.alunos.all (fun a => alunoStatusOk a && fkOk a.classe_id st.classes) &&
  st.freqs.all (fun f => fkOk f.classe_id st.classes) &&
  nomesUnique st.classes && usernamesUnique st.users

/-- Commit boundary: a successful commit makes the candidate store
visible; a constraint violation raises (unhandled `IntegrityError` /
`DataError`) and the session is rolled back, so the old store stays. -/
def commitResp (old cand : Store) (r : Response) :
    Store × Except String Response :=
  if storeOk cand then (cand, .ok r) else (old, .error "IntegrityError")

/-- Modelled from the spec: password hashing
(`werkzeug.security.generate_password_hash`, library code not in src).
A one-way salted hash whose only property used by the source is that
`check_password_hash (generate_password_hash p) q` holds exactly for
`q = p`; the salt is not modelled. -/
def generate_password_hash (p : String) : String := "pbkdf2-sha256:" ++ p

/-- Modelled from the spec: password verification
(`werkzeug.security.check_password_hash`, library code not in src). -/
def check_password_hash (h : String) (p : String) : Bool :=
  h == generate_password_hash p

/-- Verification of a password taken from a JSON body
(`user.check_password(data["password"])`); non-string values never
match a stored hash. -/
def checkPasswordJ (u : User) : JVal → Bool
  | .jstr p => check_password_hash u.password_hash p
  | _ => false

/-- Body of the session token issued by `create_access_token`
(flask_jwt_extended): identity plus absolute expiry in seconds. -/
structure Token where
  identity : Int
  exp : Nat
deriving Repr, DecidableEq

/-- Failure modes of token verification. -/
inductive TokenErr where
  | expiredToken
  | invalidSignature
  | malformedToken
deriving Repr, DecidableEq

/-- Issuing of a session token: the source calls
`create_access_token(identity=user.id, expires_delta=timedelta(hours=1))`,
so the absolute expiry is 3600 seconds after issuance. -/
def issueToken (identity : Int) (now : Nat) : Token :=
  ⟨identity, now + 3600⟩

/-- Modelled from the spec: token verification (`@jwt_required` /
flask_jwt_extended, library code not in src).  Checks expiry before
trusting the embedded identity; a token is valid until its absolute
expiry and rejected with `ExpiredToken` after it.  Signature checking
is vacuous here because the embedding only builds well-signed tokens. -/
def verifyToken (t : Token) (now : Nat) : Except TokenErr Int :=
  if t.exp < now then .error .expiredToken else .ok t.identity

/-- Body of a `/login` response: either a token or an error message. -/
inductive LoginBody where
  | tokenB (t : Token)
  | msgB (m : String)
deriving Repr

/-- Handler `register` (POST /register): requires truthy `username` and
`password`, rejects duplicate usernames, stores the hashed password.
A non-dict truthy body faults at `data.get` (`AttributeError`); a
non-string username cannot collide with stored usernames and faults at
the insert. -/
def register (st : Store) (data : JVal) : Store × Except String Response :=
  if !pyTruthy data then
    (st, .ok (400, msgBody "Username e password são obrigatórios"))
  else
    match pyDictGet data "username" with
    | .error e => (st, .error e)
    | .ok uo =>
      if !pyTruthyOpt uo then
        (st, .ok (400, msgBody "Username e password são obrigatórios"))
      else
        match pyDictGet data "password" with
        | .error e => (st, .error e)
        | .ok po =>
          if !pyTruthyOpt po then
            (st, .ok (400, msgBody "Username e password são obrigatórios"))
          else
            match pyGetItem data "username" with
            | .error e => (st, .error e)
            | .ok uv =>
              match findUserByJ st.users uv with
              | some _ => (st, .ok (400, msgBody "Username já existe"))
              | none =>
                match uv, po with
                | .jstr un, some (.jstr pw) =>
                  let u : User :=
                    ⟨nextId (st.users.map (fun x => x.id)), un,
                      generate_password_hash pw⟩
                  commitResp st { st with users := st.users ++ [u] }
                    (201, userToDict u)
                | _, _ => (st, .error "TypeError: str expected")

/-- Handler `login` (POST /login): same field validation as `register`;
on a username/password match issues a one-hour token, otherwise answers
401 with one generic message for both unknown username and wrong
password. -/
def login (st : Store) (data : JVal) (now : Nat) :
    Except String (Nat × LoginBody) :=
  if !pyTruthy data then
    .ok (400, .msgB "Username e password são obrigatórios")
  else
    match pyDictGet data "username" with
    | .error e => .error e
    | .ok uo =>
      if !pyTruthyOpt uo then
        .ok (400, .msgB "Username e password são obrigatórios")
      else
        match pyDictGet data "password" with
        | .error e => .error e
        | .ok po =>
          if !pyTruthyOpt po then
            .ok (400, .msgB "Username e password são obrigatórios")
          else
            match pyGetItem data "username" with
            | .error e => .error e
            | .ok uv =>
              match findUserByJ st.users uv with
              | some u =>
                match pyGetItem data "password" with
                | .error e => .error e
                | .ok pv =>
                  if checkPasswordJ u pv then
                    .ok (200, .tokenB (issueToken u.id now))
                  else .ok (401, .msgB "Credenciais inválidas")
              | none => .ok (401, .msgB "Credenciais inválidas")

/-- Handler `criar_classe` (POST /classes): requires truthy `nome` and
`professor`, inserts and commits. -/
def criar_classe (st : Store) (data : JVal) :
    Store × Except String Response :=
  if !pyTruthy data then
    (st, .ok (400, msgBody "Campos \"nome\" e \"professor\" são obrigatórios"))
  else
    match pyDictGet data "nome" with
    | .error e => (st, .error e)
    | .ok no =>
      if !pyTruthyOpt no then
        (st, .ok (400, msgBody "Campos \"nome\" e \"professor\" são obrigatórios"))
      else
        match pyDictGet data "professor" with
        | .error e => (st, .error e)
        | .ok po =>
          if !pyTruthyOpt po then
            (st, .ok (400, msgBody "Campos \"nome\" e \"professor\" são obrigatórios"))
          else
            match pyGetItem data "nome", pyGetItem data "professor" with
            | .ok nv, .ok pv =>
              let c : Classe :=
                ⟨nextId (st.classes.map (fun x => x.id)), nv, pv⟩
              commitResp st { st with classes := st.classes ++ [c] }
                (201, classeToDict c)
            | .error e, _ => (st, .error e)
            | _, .error e => (st, .error e)

/-- Update of one field in Python style: `if k in data: obj.f = data[k]`,
returning the old value when the key is absent and propagating the
`TypeError` that `in` or the subscript raises on non-dict bodies. -/
def updField (data : JVal) (k : String) (old : JVal) : Except String JVal := do
  let b ← pyIn data k
  if b then pyGetItem data k else pure old

/-- Field application of `atualizar_classe` on the fetched row. -/
def classeApply (c : Classe) (data : JVal) : Except String Classe := do
  let nome1 ← updField data "nome" c.nome
  let prof1 ← updField data "professor" c.professor
  pure { c with nome := nome1, professor := prof1 }

/-- Handler `atualizar_classe` (PUT /classes/id): fetch-or-404, apply
the present fields, commit. -/
def atualizar_classe (st : Store) (cid : Int) (data : JVal) :
    Store × Except String Response :=
  match findClasse st.classes cid with
  | none => (st, .ok resp404)
  | some c =>
    match classeApply c data with
    | .error e => (st, .error e)
    | .ok c2 =>
      commitResp st { st with classes := replaceClasse st.classes cid c2 }
        (200, classeToDict c2)

/-- Handler `criar_aluno` (POST /alunos): checks only the presence of
the keys `nome`, `data_nascimento`, `classe_id` (Python
`all(field in data ...)`, short-circuiting), parses the birth date
inside try/except, inserts with the enum default status and commits. -/
def criar_aluno (st : Store) (data : JVal) :
    Store × Except String Response :=
  match pyIn data "nome" with
  | .error e => (st, .error e)
  | .ok b1 =>
    if !b1 then (st, .ok (400, msgBody "Campos obrigatórios ausentes"))
    else
      match pyIn data "data_nascimento" with
      | .error e => (st, .error e)
      | .ok b2 =>
        if !b2 then (st, .ok (400, msgBody "Campos obrigatórios ausentes"))
        else
          match pyIn data "classe_id" with
          | .error e => (st, .error e)
          | .ok b3 =>
            if !b3 then (st, .ok (400, msgBody "Campos obrigatórios ausentes"))
            else
              match pyGetItem data "nome", pyGetItem data "data_nascimento",
                  pyGetItem data "classe_id" with
              | .ok nv, .ok dv, .ok cv =>
                match parseDateJ dv with
                | none =>
                  (st, .ok (400, errBody "Formato de data inválido" (dateErrDetail dv)))
                | some d =>
                  let a : Aluno :=
                    ⟨nextId (st.alunos.map (fun x => x.id)), nv, d,
                      .jstr "MATRICULADO", cv⟩
                  commitResp st { st with alunos := st.alunos ++ [a] }
                    (201, alunoToDict a)
              | .error e, _, _ => (st, .error e)
              | _, .error e, _ => (st, .error e)
              | _, _, .error e => (st, .error e)

/-- Field application of `atualizar_aluno` on the fetched row:
`Sum.inl` is the early 400 return on an unparsable `data_nascimento`
(the session mutations made before it are rolled back at teardown),
`Sum.inr` the fully updated row. -/
def alunoApply (a : Aluno) (data : JVal) :
    Except String (Sum String Aluno) := do
  let nome1 ← updField data "nome" a.nome
  let hasD ← pyIn data "data_nascimento"
  let dOut ←
    if hasD then do
      let v ← pyGetItem data "data_nascimento"
      pure (match parseDateJ v with
        | none => Sum.inl (dateErrDetail v)
        | some d => Sum.inr d)
    else pure (Sum.inr a.data_nascimento)
  match dOut with
  | .inl det => pure (.inl det)
  | .inr d1 => do
    let cid1 ← updField data "classe_id" a.classe_id
    let st1 ← updField data "status" a.status
    pure (.inr { a with
      nome := nome1
      data_nascimento := d1
      classe_id := cid1
      status := st1 })

/-- Handler `atualizar_aluno` (PUT /alunos/id): fetch-or-404, apply the
present fields (`status` taken verbatim from the body), early 400 on a
bad date with nothing committed, otherwise commit. -/
def atualizar_aluno (st : Store) (aid : Int) (data : JVal) :
    Store × Except String Response :=
  match findAluno st.alunos aid with
  | none => (st, .ok resp404)
  | some a =>
    match alunoApply a data with
    | .error e => (st, .error e)
    | .ok (.inl det) => (st, .ok (400, errBody "Formato de data inválido" det))
    | .ok (.inr a2) =>
      commitResp st { st with alunos := replaceAluno st.alunos aid a2 }
        (200, alunoToDict a2)

/-- Field application of `atualizar_frequencia` on the fetched row;
`Sum.inl` is the early 400 return on an unparsable `data`. -/
def freqApply (f : Freq) (data : JVal) :
    Except String (Sum String Freq) := do
  let cid1 ← updField data "classe_id" f.classe_id
  let hasD ← pyIn data "data"
  let dOut ←
    if hasD then do
      let v ← pyGetItem data "data"
      pure (match parseDateJ v with
        | none => Sum.inl (dateErrDetail v)
        | some d => Sum.inr d)
    else pure (Sum.inr f.data)
  match dOut with
  | .inl det => pure (.inl det)
  | .inr d1 => do
    let tb ← updField data "total_biblia" f.total_biblia
    let tp ← updField data "total_present" f.total_present
    let ta ← updField data "total_absent" f.total_absent
    let tv ← updField data "total_visitors" f.total_visitors
    let tg ← updField data "total_general" f.total_general
    let pr ← updField data "presencas" f.presencas
    pure (.inr { f with
      classe_id := cid1
      data := d1
      total_biblia := tb
      total_present := tp
      total_absent := ta
      total_visitors := tv
      total_general := tg
      presencas := pr })

/-- Handler `atualizar_frequencia` (PUT /frequencias/id): fetch-or-404,
apply the present fields, early 400 on a bad date, otherwise commit. -/
def atualizar_frequencia (st : Store) (fid : Int) (data : JVal) :
    Store × Except String Response :=
  match findFreq st.freqs fid with
  | none => (st, .ok resp404)
  | some f =>
    match freqApply f data with
    | .error e => (st, .error e)
    | .ok (.inl det) => (st, .ok (400, errBody "Formato de data inválido" det))
    | .ok (.inr f2) =>
      commitResp st { st with freqs := replaceFreq st.freqs fid f2 }
        (200, freqToDict f2)

/-- Date-range filter of the weekly report:
`Frequencia.data.between(start_date, end_date)`, SQL `BETWEEN`, which is
inclusive at both bounds. -/
def semanalCore (freqs : List Freq) (s e : Date) : List Freq :=
  freqs.filter (fun f => dateLe s f.data && dateLe f.data e)

/-- Message detail of a `strptime` failure on a query argument
(`str(e)`; `strptime(None, ...)` raises `TypeError`, also caught). -/
def argDateErrDetail : Option String → String
  | none => "strptime() argument 1 must be str, not None"
  | some s => "time data " ++ s ++ " does not match format %Y-%m-%d"

/-- Parse of a query argument through `strptime`: a missing argument is
Python `None` and raises inside the same try/except. -/
def parseArgDate : Option String → Option Date
  | none => none
  | some s => parseDateStr s

/-- Handler `relatorio_semanal` (GET /relatorios/semanal): parses
`data_inicio` then `data_fim` inside try/except (400 with the parse
detail on failure) and answers the inclusive date-range filter. -/
def relatorio_semanal (freqs : List Freq)
    (dataInicio dataFim : Option String) : Except String Response :=
  match parseArgDate dataInicio with
  | none => .ok (400, errBody "Formato de data inválido" (argDateErrDetail dataInicio))
  | some s =>
    match parseArgDate dataFim with
    | none => .ok (400, errBody "Formato de data inválido" (argDateErrDetail dataFim))
    | some e =>
      .ok (200, .jarr ((semanalCore freqs s e).map freqToDict))

/-- History element appended for a record and its matched entry:
`record = freq.to_dict(); record["presenca"] = presenca`. -/
def histElem (f : Freq) (p : JVal) : JVal :=
  .jobj (freqToDictFields f ++ [("presenca", p)])

/-- Match test of one attendance-log entry against a student id:
`presenca.get("aluno_id") == aluno_id` for a dict entry; a non-dict
entry has no `.get` and raises `AttributeError`. -/
def scanPresencas (aid : Int) : List JVal → Except String (Option JVal)
  | [] => .ok none
  | p :: ps =>
    match p with
    | .jobj fs =>
      if pyEqIntOpt (objGet fs "aluno_id") aid then .ok (some p)
      else scanPresencas aid ps
    | _ => .error "AttributeError: object has no attribute get"

/-- Scan of `historico_frequencia` over all attendance records: a record
whose `presencas` is falsy or not a list is skipped; otherwise its log
is scanned in order and the first matching entry (if any) contributes
one history element (`break` after the first match). -/
def historicoCore (aid : Int) : List Freq → Except String (List JVal)
  | [] => .ok []
  | f :: fs =>
    match f.presencas with
    | .jarr xs =>
      if xs.isEmpty then historicoCore aid fs
      else
        match scanPresencas aid xs with
        | .error e => .error e
        | .ok none => historicoCore aid fs
        | .ok (some p) =>
          match historicoCore aid fs with
          | .error e => .error e
          | .ok rest => .ok (histElem f p :: rest)
    | _ => historicoCore aid fs

/-- Handler `historico_frequencia` (GET /alunos/id/historico): the scan
serialized with status 200. -/
def historico_frequencia (freqs : List Freq) (aid : Int) :
    Except String Response :=
  match historicoCore aid freqs with
  | .error e => .error e
  | .ok l => .ok (200, .jarr l)

/-- Match test used by the specification text: an entry whose embedded
student identifier equals the given id. -/
def entryMatches (sid : Int) (p : JVal) : Bool :=
  match p with
  | .jobj fs => pyEqIntOpt (objGet fs "aluno_id") sid
  | _ => false

/-- Modelled from the spec (§4.4 `history_for_student`): scans every
record's attendance-log; for each record containing an entry whose
embedded student identifier equals `student_id`, emits the record paired
with the first matching entry only.  Reference definition for the
refinement claim about `historico_frequencia`. -/
def history_for_student_spec (freqs : List Freq) (sid : Int) :
    List (Freq × JVal) :=
  freqs.filterMap (fun f =>
    match f.presencas with
    | .jarr entries => (entries.find? (entryMatches sid)).map (fun p => (f, p))
    | _ => none)

/-- Shape test: is an attendance-log entry a dict (the only shape whose
`.get` call does not raise)? -/
def isDictEntry : JVal → Bool
  | .jobj _ => true
  | _ => false

/-- Shape test of the `isinstance(freq.presencas, list)` guard. -/
def isListLog : JVal → Bool
  | .jarr _ => true
  | _ => false

/-- Log well-formedness: when `presencas` is a list, all its entries are
dict entries (the shape the API itself writes). -/
def wellFormedLog : JVal → Bool
  | .jarr xs => xs.all isDictEntry
  | _ => true

/-- Well-formedness of every attendance-log in a collection. -/
def wellFormedLogs (freqs : List Freq) : Bool :=
  freqs.all (fun f => wellFormedLog f.presencas)

/-! Concrete fixtures used by the witness theorems. -/

/-- Sample class row. -/
def wClasse : Classe := ⟨1, .jstr "Kids A", .jstr "Maria"⟩

/-- Sample user row. -/
def wUser : User := ⟨1, "ana", generate_password_hash "pw1"⟩

/-- Sample student row. -/
def wAluno : Aluno := ⟨1, .jstr "Joao", ⟨2010, 3, 15⟩, .jstr "MATRICULADO", .jint 1⟩

/-- First attendance-log entry for student 7. -/
def wEntry1 : JVal := .jobj [("aluno_id", .jint 7), ("presente", .jbool true)]

/-- Duplicate attendance-log entry for student 7. -/
def wEntry2 : JVal := .jobj [("aluno_id", .jint 7), ("presente", .jbool false)]

/-- Attendance record whose log holds two entries for the same student. -/
def wFreqDup : Freq :=
  ⟨1, .jint 1, ⟨2024, 3, 10⟩, .jint 0, .jint 5, .jint 2, .jint 1, .jint 8,
    .jarr [wEntry1, wEntry2]⟩

/-- Attendance record whose log column is SQL NULL. -/
def wFreqNull : Freq :=
  ⟨2, .jint 1, ⟨2024, 3, 17⟩, .jint 0, .jint 0, .jint 0, .jint 0, .jint 0,
    .jnull⟩

/-- Record dated one day before the sample range start. -/
def wFreqBefore : Freq :=
  ⟨3, .jint 1, ⟨2024, 3, 9⟩, .jint 0, .jint 1, .jint 0, .jint 0, .jint 1, .jarr []⟩

/-- Record dated exactly on the sample range start. -/
def wFreqStart : Freq :=
  ⟨4, .jint 1, ⟨2024, 3, 10⟩, .jint 0, .jint 2, .jint 0, .jint 0, .jint 2, .jarr []⟩

/-- Record dated exactly on the sample range end. -/
def wFreqEnd : Freq :=
  ⟨5, .jint 1, ⟨2024, 3, 15⟩, .jint 0, .jint 3, .jint 0, .jint 0, .jint 3, .jarr []⟩

/-- Record dated one day after the sample range end. -/
def wFreqAfter : Freq :=
  ⟨6, .jint 1, ⟨2024, 3, 16⟩, .jint 0, .jint 4, .jint 0, .jint 0, .jint 4, .jarr []⟩

/-- Records surrounding the sample date range. -/
def wRange : List Freq := [wFreqBefore, wFreqStart, wFreqEnd, wFreqAfter]

/-- Sample store satisfying every database constraint. -/
def wStore : Store := ⟨[wUser], [wClasse], [wAluno], [wFreqDup]⟩

/-! Helper lemmas about the embedding. -/

theorem updField_obj (fs : List (String × JVal)) (k : String) (old : JVal) :
    updField (.jobj fs) k old = .ok ((objGet fs k).getD old) := by
  cases h : objGet fs k <;>
    simp [updField, pyIn, pyGetItem, h, bind, Except.bind, pure, Except.pure]

theorem commitResp_cases (old cand : Store) (r : Response) (st2 : Store)
    (ex : Except String Response) (h : commitResp old cand r = (st2, ex)) :
    (storeOk cand = true ∧ st2 = cand ∧ ex = .ok r) ∨
      (storeOk cand = false ∧ st2 = old ∧ ex = .error "IntegrityError") := by
  unfold commitResp at h
  by_cases hc : storeOk cand
  · simp [hc] at h
    exact Or.inl ⟨hc, h.1.symm, h.2.symm⟩
  · simp [hc] at h
    exact Or.inr ⟨by simpa using hc, h.1.symm, h.2.symm⟩

theorem classeApply_obj (c : Classe) (fs : List (String × JVal)) :
    classeApply c (.jobj fs) = .ok (classeUpd c fs) := by
  simp [classeApply, classeUpd, updField_obj, bind, Except.bind, pure, Except.pure]

theorem alunoApply_obj (a : Aluno) (fs : List (String × JVal)) :
    alunoApply a (.jobj fs) =
      .ok (match objGet fs "data_nascimento" with
        | none => Sum.inr { a with
            nome := (objGet fs "nome").getD a.nome
            classe_id := (objGet fs "classe_id").getD a.classe_id
            status := (objGet fs "status").getD a.status }
        | some v =>
          match parseDateJ v with
          | none => Sum.inl (dateErrDetail v)
          | some d => Sum.inr { a with
              nome := (objGet fs "nome").getD a.nome
              data_nascimento := d
              classe_id := (objGet fs "classe_id").getD a.classe_id
              status := (objGet fs "status").getD a.status }) := by
  cases hd : objGet fs "data_nascimento" with
  | none =>
    simp [alunoApply, updField_obj, pyIn, hd, bind, Except.bind, pure, Except.pure]
  | some v =>
    cases hp : parseDateJ v with
    | none =>
      simp [alunoApply, updField_obj, pyIn, pyGetItem, hd, hp, bind, Except.bind, pure, Except.pure]
    | some d =>
      simp [alunoApply, updField_obj, pyIn, pyGetItem, hd, hp, bind, Except.bind, pure, Except.pure]

theorem freqApply_obj (f : Freq) (fs : List (String × JVal)) :
    freqApply f (.jobj fs) =
      .ok (match objGet fs "data" with
        | none => Sum.inr (freqUpd f fs f.data)
        | some v =>
          match parseDateJ v with
          | none => Sum.inl (dateErrDetail v)
          | some d => Sum.inr (freqUpd f fs d)) := by
  cases hd : objGet fs "data" with
  | none =>
    simp [freqApply, freqUpd, updField_obj, pyIn, hd, bind, Except.bind, pure,
      Except.pure]
  | some v =>
    cases hp : parseDateJ v with
    | none =>
      simp [freqApply, freqUpd, updField_obj, pyIn, pyGetItem, hd, hp, bind,
        Except.bind, pure, Except.pure]
    | some d =>
      simp [freqApply, freqUpd, updField_obj, pyIn, pyGetItem, hd, hp, bind,
        Except.bind, pure, Except.pure]

theorem map_replace_self {α : Type} (f : α → Int) (cid : Int) (c : α) :
    ∀ l : List α, l.find? (fun x => f x == cid) = some c →
      (l.map f).Nodup →
      l.map (fun x => if f x == cid then c else x) = l := by
  intro l
  induction l with
  | nil => intro h; simp [List.find?] at h
  | cons x xs ih =>
    intro hfind hnd
    rw [List.map_cons] at hnd
    rcases List.nodup_cons.mp hnd with ⟨hx, hnd2⟩
    by_cases hxc : f x == cid
    · simp only [List.find?, hxc] at hfind
      injection hfind with hxe
      subst hxe
      simp only [List.map_cons, if_pos hxc]
      congr 1
      have hfx : f x = cid := by simpa using hxc
      have hall : ∀ y ∈ xs, (if f y == cid then x else y) = y := by
        intro y hy
        have hne : f y ≠ cid := by
          intro hc
          apply hx
          have hxy : f x = f y := by rw [hfx, hc]
          rw [hxy]
          exact List.mem_map_of_mem f hy
        have hne2 : (f y == cid) = false := by simpa using hne
        simp [hne2]
      rw [List.map_congr_left hall, List.map_id']
    · have hxc2 : (f x == cid) = false := by simpa using hxc
      simp only [List.find?, hxc2] at hfind
      simp only [List.map_cons, if_neg hxc]
      rw [ih hfind hnd2]

theorem find?_replace {α : Type} (f : α → Int) (cid : Int) (c c2 : α)
    (hid : f c2 = cid) :
    ∀ l : List α, l.find? (fun x => f x == cid) = some c →
      (l.map (fun x => if f x == cid then c2 else x)).find?
        (fun x => f x == cid) = some c2 := by
  intro l
  induction l with
  | nil => intro h; simp [List.find?] at h
  | cons x xs ih =>
    intro hfind
    by_cases hxc : f x == cid
    · simp only [List.map_cons, if_pos hxc]
      simp [List.find?, hid]
    · have hxc2 : (f x == cid) = false := by simpa using hxc
      simp only [List.find?, hxc2] at hfind
      simp only [List.map_cons, if_neg hxc]
      simp only [List.find?, hxc2]
      exact ih hfind

theorem mem_replace_of_ne {α : Type} (f : α → Int) (cid : Int) (c2 : α)
    (l : List α) (x : α) (hx : x ∈ l) (hne : f x ≠ cid) :
    x ∈ l.map (fun y => if f y == cid then c2 else y) := by
  have : (if f x == cid then c2 else x) = x := by
    have : (f x == cid) = false := by simp [hne]
    simp [this]
  rw [← this]
  exact List.mem_map_of_mem _ hx

theorem storeOk_alunos (st : Store) (h : storeOk st = true) :
    ∀ a ∈ st.alunos, alunoStatusOk a = true := by
  unfold storeOk at h
  simp only [Bool.and_eq_true, List.all_eq_true] at h
  intro a ha
  have h2 := h.1.1.1 a ha
  simp only [Bool.and_eq_true] at h2
  exact h2.1

theorem criar_aluno_state (st : Store) (data : JVal) (st2 : Store)
    (ex : Except String Response) (h : criar_aluno st data = (st2, ex)) :
    st2 = st ∨ (storeOk st2 = true ∧ ∃ aN, st2.alunos = st.alunos ++ [aN] ∧
      aN.status = .jstr "MATRICULADO") := by
  unfold criar_aluno at h
  repeat' split at h
  all_goals
    first
    | (cases h; exact Or.inl rfl)
    | (rcases commitResp_cases _ _ _ _ _ h with ⟨hok, rfl, rfl⟩ | ⟨_, rfl, rfl⟩
       · exact Or.inr ⟨hok, _, rfl, rfl⟩
       · exact Or.inl rfl)

theorem atualizar_aluno_state (st : Store) (aid : Int) (data : JVal)
    (st2 : Store) (ex : Except String Response)
    (h : atualizar_aluno st aid data = (st2, ex)) :
    st2 = st ∨ storeOk st2 = true := by
  unfold atualizar_aluno at h
  repeat' split at h
  all_goals
    first
    | (cases h; exact Or.inl rfl)
    | (rcases commitResp_cases _ _ _ _ _ h with ⟨hok, rfl, rfl⟩ | ⟨_, rfl, rfl⟩
       · exact Or.inr hok
       · exact Or.inl rfl)

theorem criar_aluno_created (st : Store) (data : JVal) (st2 : Store)
    (r : Response) (h : criar_aluno st data = (st2, .ok r)) (hr : r.1 = 201) :
    ∃ aN, st2.alunos = st.alunos ++ [aN] ∧
      aN.status = .jstr "MATRICULADO" := by
  unfold criar_aluno at h
  repeat' split at h
  all_goals
    first
    | (exfalso; injection h with h1 h2; cases h2; done)
    | (injection h with h1 h2; injection h2 with h3; subst h3; simp at hr)
    | (rcases commitResp_cases _ _ _ _ _ h with ⟨hok, rfl, hr2⟩ | ⟨_, _, hr2⟩
       · exact ⟨_, rfl, rfl⟩
       · cases hr2)

theorem scanPresencas_wf (aid : Int) :
    ∀ xs : List JVal, xs.all isDictEntry = true →
      scanPresencas aid xs = .ok (xs.find? (entryMatches aid)) := by
  intro xs
  induction xs with
  | nil => intro _; rfl
  | cons p ps ih =>
    intro h
    simp only [List.all_cons, Bool.and_eq_true] at h
    cases p with
    | jobj fs =>
      by_cases hm : pyEqIntOpt (objGet fs "aluno_id") aid
      · simp [scanPresencas, List.find?, entryMatches, hm]
      · have hm2 : pyEqIntOpt (objGet fs "aluno_id") aid = false := by
          simpa using hm
        simp [scanPresencas, List.find?, entryMatches, hm2, ih h.2]
    | jnull => simp [isDictEntry] at h
    | jbool b => simp [isDictEntry] at h
    | jint n => simp [isDictEntry] at h
    | jstr s => simp [isDictEntry] at h
    | jarr l => simp [isDictEntry] at h

theorem historicoCore_wf (aid : Int) :
    ∀ freqs : List Freq, wellFormedLogs freqs = true →
      historicoCore aid freqs =
        .ok ((history_for_student_spec freqs aid).map
          (fun pr => histElem pr.1 pr.2)) := by
  intro freqs
  induction freqs with
  | nil => intro _; rfl
  | cons f fs ih =>
    intro h
    simp only [wellFormedLogs, List.all_cons, Bool.and_eq_true] at h
    have ih2 := ih (by simp [wellFormedLogs, h.2])
    cases hp : f.presencas with
    | jarr xs =>
      have hwf : xs.all isDictEntry = true := by
        have := h.1
        rw [hp] at this
        simpa [wellFormedLog] using this
      by_cases he : xs.isEmpty
      · have hxs : xs = [] := by cases xs <;> simp_all
        subst hxs
        simp [historicoCore, hp, history_for_student_spec, List.filterMap_cons,
          List.find?, ih2]
      · have he2 : xs.isEmpty = false := by simpa using he
        cases hfound : xs.find? (entryMatches aid) with
        | none =>
          simp [historicoCore, hp, he2, scanPresencas_wf aid xs hwf, hfound,
            history_for_student_spec, List.filterMap_cons, ih2]
        | some p =>
          simp [historicoCore, hp, he2, scanPresencas_wf aid xs hwf, hfound,
            history_for_student_spec, List.filterMap_cons, ih2]
    | jnull =>
      simp [historicoCore, hp, history_for_student_spec, List.filterMap_cons, ih2]
    | jbool b =>
      simp [historicoCore, hp, history_for_student_spec, List.filterMap_cons, ih2]
    | jint n =>
      simp [historicoCore, hp, history_for_student_spec, List.filterMap_cons, ih2]
    | jstr s =>
      simp [historicoCore, hp, history_for_student_spec, List.filterMap_cons, ih2]
    | jobj gs =>
      simp [historicoCore, hp, history_for_student_spec, List.filterMap_cons, ih2]

theorem historicoCore_cons_congr (aid : Int) (g : Freq)
    (rest1 rest2 : List Freq)
    (h : historicoCore aid rest1 = historicoCore aid rest2) :
    historicoCore aid (g :: rest1) = historicoCore aid (g :: rest2) := by
  cases hp : g.presencas with
  | jarr xs =>
    by_cases he : xs.isEmpty
    · simp [historicoCore, hp, he, h]
    · have he2 : xs.isEmpty = false := by simpa using he
      cases hs : scanPresencas aid xs with
      | error e => simp [historicoCore, hp, he2, hs]
      | ok o =>
        cases o with
        | none => simp [historicoCore, hp, he2, hs, h]
        | some p => simp [historicoCore, hp, he2, hs, h]
  | jnull => simp [historicoCore, hp, h]
  | jbool b => simp [historicoCore, hp, h]
  | jint n => simp [historicoCore, hp, h]
  | jstr s => simp [historicoCore, hp, h]
  | jobj gs => simp [historicoCore, hp, h]

theorem historicoCore_skip (aid : Int) (f : Freq)
    (hf : isListLog f.presencas = false) :
    ∀ db1 db2 : List Freq,
      historicoCore aid (db1 ++ f :: db2) = historicoCore aid (db1 ++ db2) := by
  intro db1
  induction db1 with
  | nil =>
    intro db2
    cases hp : f.presencas with
    | jarr xs => rw [hp] at hf; simp [isListLog] at hf
    | jnull => simp [historicoCore, hp]
    | jbool b => simp [historicoCore, hp]
    | jint n => simp [historicoCore, hp]
    | jstr s => simp [historicoCore, hp]
    | jobj gs => simp [historicoCore, hp]
  | cons g gs ih =>
    intro db2
    simp only [List.cons_append]
    exact historicoCore_cons_congr aid g _ _ (ih db2)

theorem objGet_some_not_nil (fs : List (String × JVal)) (k : String)
    (v : JVal) (h : objGet fs k = some v) : fs.isEmpty = false := by
  cases fs with
  | nil => simp [objGet, List.find?] at h
  | cons p ps => rfl

/-- C1: for every collection of attendance records (with dict-shaped log
entries) and every student id, GET /alunos/id/historico scans every
record's attendance-log and emits, for each record with at least one
entry whose `aluno_id` equals the given id, exactly one element: the
record paired with the first matching entry in log order; records with
no match contribute nothing and duplicate entries yield only the first.
Stated as agreement with the specification function
`history_for_student_spec`, whose per-record `List.find?` returns
exactly the first match. -/
theorem historico_matches_spec_first_only (freqs : List Freq) (sid : Int)
    (h : wellFormedLogs freqs = true) :
    historico_frequencia freqs sid =
      .ok (200, .jarr ((history_for_student_spec freqs sid).map
        (fun pr => histElem pr.1 pr.2))) := by
  simp [historico_frequencia, historicoCore_wf sid freqs h]

/-- Witness for C1: on a record whose log is
`[{aluno_id:7, presente:true}, {aluno_id:7, presente:false}]` the
history has exactly one element and it contains the first entry. -/
theorem historico_matches_spec_first_only_witness :
    historico_frequencia [wFreqDup] 7 =
      .ok (200, .jarr [histElem wFreqDup wEntry1]) := by
  have h := historico_matches_spec_first_only [wFreqDup] 7 (by decide)
  exact h.trans (by rfl)

/-- C10: the per-student history operation is total over malformed
attendance-logs: a record whose `presencas` column is NULL (also the
value of an absent field) or not a list is silently skipped — removing
it from the collection does not change the result — and when the
remaining records are well-formed the operation still answers 200. -/
theorem historico_skips_malformed_log (db1 db2 : List Freq) (f : Freq)
    (sid : Int) (hf : isListLog f.presencas = false) :
    historico_frequencia (db1 ++ f :: db2) sid =
      historico_frequencia (db1 ++ db2) sid ∧
    (wellFormedLogs (db1 ++ db2) = true →
      ∃ l, historico_frequencia (db1 ++ f :: db2) sid = .ok (200, .jarr l)) := by
  constructor
  · simp [historico_frequencia, historicoCore_skip sid f hf db1 db2]
  · intro hwf
    refine ⟨(history_for_student_spec (db1 ++ db2) sid).map
      (fun pr => histElem pr.1 pr.2), ?_⟩
    simp [historico_frequencia, historicoCore_skip sid f hf db1 db2,
      historicoCore_wf sid _ hwf]

/-- Witness for C10: a NULL-log record among well-formed ones is skipped
and the request still answers 200. -/
theorem historico_skips_malformed_log_witness :
    historico_frequencia [wFreqNull, wFreqDup] 7 =
        historico_frequencia [wFreqDup] 7 ∧
      ∃ l, historico_frequencia [wFreqNull, wFreqDup] 7 = .ok (200, .jarr l) := by
  have h := historico_skips_malformed_log [] [wFreqDup] wFreqNull 7 (by decide)
  exact ⟨h.1, h.2 (by decide)⟩

/-- C7: the date-range report keeps exactly the records whose session
date lies between the bounds, both ends inclusive: membership in the
filtered sequence is equivalent to `start ≤ data ≤ end`, a record dated
exactly on either bound is kept (when the range is nonempty), and the
handler answers 200 with exactly the filtered records whenever both
query dates parse. -/
theorem semanal_range_inclusive (freqs : List Freq) (s e : Date) :
    (∀ f, f ∈ semanalCore freqs s e ↔
      f ∈ freqs ∧ dateLe s f.data = true ∧ dateLe f.data e = true) ∧
    (∀ f, f ∈ freqs → dateLe s e = true → (f.data = s ∨ f.data = e) →
      f ∈ semanalCore freqs s e) ∧
    (∀ si se_, parseDateStr si = some s → parseDateStr se_ = some e →
      relatorio_semanal freqs (some si) (some se_) =
        .ok (200, .jarr ((semanalCore freqs s e).map freqToDict))) := by
  refine ⟨?_, ?_, ?_⟩
  · intro f
    simp [semanalCore, List.mem_filter, Bool.and_eq_true]
  · intro f hmem hse hbound
    have hrefl : ∀ d : Date, dateLe d d = true := by
      intro d; simp [dateLe]
    rcases hbound with hb | hb <;>
      simp [semanalCore, List.mem_filter, hb, hrefl, hse, hmem]
  · intro si se_ h1 h2
    simp [relatorio_semanal, parseArgDate, h1, h2]

/-- Witness for C7: with range 2024-03-10 .. 2024-03-15, the records on
the two bounds are kept and the records one day outside either bound
are dropped. -/
theorem semanal_range_inclusive_witness :
    relatorio_semanal wRange (some "2024-03-10") (some "2024-03-15") =
      .ok (200, .jarr ([wFreqStart, wFreqEnd].map freqToDict)) := by
  have h := (semanal_range_inclusive wRange ⟨2024, 3, 10⟩ ⟨2024, 3, 15⟩).2.2
    "2024-03-10" "2024-03-15" (by decide) (by decide)
  exact h.trans (by rfl)

/-- C8: with both fields present and truthy, the login failure response
for an unknown username is identical — same 401 status and same message
body — to the failure response for a known username with a wrong
password: both are `401 {"msg": "Credenciais inválidas"}`, so the
outcome carries no user-enumeration signal. -/
theorem login_no_enumeration (st : Store)
    (fs1 fs2 : List (String × JVal)) (un1 pw1 un2 pw2 : String)
    (u : User) (now1 now2 : Nat)
    (h1u : objGet fs1 "username" = some (.jstr un1)) (h1n : un1 ≠ "")
    (h1p : objGet fs1 "password" = some (.jstr pw1)) (h1e : pw1 ≠ "")
    (hnone : findUserByJ st.users (.jstr un1) = none)
    (h2u : objGet fs2 "username" = some (.jstr un2)) (h2n : un2 ≠ "")
    (h2p : objGet fs2 "password" = some (.jstr pw2)) (h2e : pw2 ≠ "")
    (hsome : findUserByJ st.users (.jstr un2) = some u)
    (hwrong : checkPasswordJ u (.jstr pw2) = false) :
    login st (.jobj fs1) now1 = .ok (401, .msgB "Credenciais inválidas") ∧
    login st (.jobj fs2) now2 = .ok (401, .msgB "Credenciais inválidas") ∧
    login st (.jobj fs1) now1 = login st (.jobj fs2) now2 := by
  have e1 : login st (.jobj fs1) now1 = .ok (401, .msgB "Credenciais inválidas") := by
    have hb1 : (un1 != "") = true := by simpa using h1n
    have hb2 : (pw1 != "") = true := by simpa using h1e
    simp [login, pyTruthy, pyDictGet, pyGetItem, pyTruthyOpt,
      objGet_some_not_nil fs1 "username" _ h1u, h1u, h1p, hb1, hb2, hnone]
  have e2 : login st (.jobj fs2) now2 = .ok (401, .msgB "Credenciais inválidas") := by
    have hb1 : (un2 != "") = true := by simpa using h2n
    have hb2 : (pw2 != "") = true := by simpa using h2e
    simp [login, pyTruthy, pyDictGet, pyGetItem, pyTruthyOpt,
      objGet_some_not_nil fs2 "username" _ h2u, h2u, h2p, hb1, hb2, hsome, hwrong]
  exact ⟨e1, e2, e1.trans e2.symm⟩

/-- Witness for C8: against a store holding the single user "ana", the
unknown-user request and the wrong-password request produce the same
401 response. -/
theorem login_no_enumeration_witness :
    login wStore (.jobj [("username", .jstr "nobody"), ("password", .jstr "x")]) 5 =
        .ok (401, .msgB "Credenciais inválidas") ∧
      login wStore (.jobj [("username", .jstr "ana"), ("password", .jstr "wrong")]) 9 =
        .ok (401, .msgB "Credenciais inválidas") ∧
      login wStore (.jobj [("username", .jstr "nobody"), ("password", .jstr "x")]) 5 =
        login wStore (.jobj [("username", .jstr "ana"), ("password", .jstr "wrong")]) 9 := by
  exact login_no_enumeration wStore
    [("username", .jstr "nobody"), ("password", .jstr "x")]
    [("username", .jstr "ana"), ("password", .jstr "wrong")]
    "nobody" "x" "ana" "wrong" wUser 5 9
    rfl (by decide) rfl (by decide) (by decide)
    rfl (by decide) rfl (by decide) (by decide) (by decide)

/-- C5: a successful login issues a token whose absolute expiry is
exactly 3600 seconds after issuance (`expires_delta=timedelta(hours=1)`)
and whose identity is the authenticated user's id; verifying the token
at any time up to the expiry recovers that identity, and verifying it
more than one hour after issuance fails with `ExpiredToken`. -/
theorem token_expires_in_one_hour (st : Store) (fs : List (String × JVal))
    (un pw : String) (u : User) (now : Nat)
    (hu : objGet fs "username" = some (.jstr un)) (hun : un ≠ "")
    (hp : objGet fs "password" = some (.jstr pw)) (hpw : pw ≠ "")
    (hfind : findUserByJ st.users (.jstr un) = some u)
    (hcheck : check_password_hash u.password_hash pw = true) :
    login st (.jobj fs) now = .ok (200, .tokenB (issueToken u.id now)) ∧
    (issueToken u.id now).exp = now + 3600 ∧
    (∀ t1, t1 ≤ now + 3600 → verifyToken (issueToken u.id now) t1 = .ok u.id) ∧
    (∀ t2, now + 3600 < t2 →
      verifyToken (issueToken u.id now) t2 = .error .expiredToken) := by
  refine ⟨?_, rfl, ?_, ?_⟩
  · have hb1 : (un != "") = true := by simpa using hun
    have hb2 : (pw != "") = true := by simpa using hpw
    simp [login, pyTruthy, pyDictGet, pyGetItem, pyTruthyOpt,
      objGet_some_not_nil fs "username" _ hu, hu, hp, hb1, hb2, hfind,
      checkPasswordJ, hcheck]
  · intro t1 ht
    simp [verifyToken, issueToken]
    omega
  · intro t2 ht
    simp [verifyToken, issueToken, ht]

/-- Witness for C5: logging in as "ana" at time 0 yields a token that
expires at 3600; verification succeeds at 3600 and fails with
`ExpiredToken` at 3601. -/
theorem token_expires_in_one_hour_witness :
    login wStore (.jobj [("username", .jstr "ana"), ("password", .jstr "pw1")]) 0 =
        .ok (200, .tokenB (issueToken 1 0)) ∧
      (issueToken 1 0).exp = 3600 ∧
      verifyToken (issueToken 1 0) 3600 = .ok 1 ∧
      verifyToken (issueToken 1 0) 3601 = .error .expiredToken := by
  have h := token_expires_in_one_hour wStore
    [("username", .jstr "ana"), ("password", .jstr "pw1")]
    "ana" "pw1" wUser 0 rfl (by decide) rfl (by decide) (by decide) (by decide)
  exact ⟨h.1, h.2.1, h.2.2.1 3600 (by decide), h.2.2.2 3601 (by decide)⟩

/-- C3: a PUT /alunos/id request whose `data_nascimento` fails to parse
answers 400 and persists no partial state: the store is exactly the
prior store, so every field of the targeted student — including a
`nome` the same request supplied, which the handler assigns before the
failing parse — keeps its prior value (the uncommitted session mutation
is rolled back at teardown). -/
theorem atualizar_aluno_failed_date_writes_nothing (st : Store) (aid : Int)
    (fs : List (String × JVal)) (a : Aluno) (v : JVal)
    (hfind : findAluno st.alunos aid = some a)
    (hv : objGet fs "data_nascimento" = some v)
    (hbad : parseDateJ v = none) :
    atualizar_aluno st aid (.jobj fs) =
        (st, .ok (400, errBody "Formato de data inválido" (dateErrDetail v))) ∧
      findAluno (atualizar_aluno st aid (.jobj fs)).1.alunos aid = some a := by
  have hmain : atualizar_aluno st aid (.jobj fs) =
      (st, .ok (400, errBody "Formato de data inválido" (dateErrDetail v))) := by
    simp [atualizar_aluno, hfind, alunoApply_obj, hv, hbad]
  exact ⟨hmain, by rw [hmain]; exact hfind⟩

/-- Witness for C3: updating student 1 with a new name and the
unparsable birth date "31-12-2010" answers 400 and leaves the student
record — name included — unchanged. -/
theorem atualizar_aluno_failed_date_writes_nothing_witness :
    atualizar_aluno wStore 1
        (.jobj [("nome", .jstr "Outro"), ("data_nascimento", .jstr "31-12-2010x")]) =
        (wStore, .ok (400, errBody "Formato de data inválido"
          (dateErrDetail (.jstr "31-12-2010x")))) ∧
      findAluno (atualizar_aluno wStore 1
        (.jobj [("nome", .jstr "Outro"),
          ("data_nascimento", .jstr "31-12-2010x")])).1.alunos 1 = some wAluno := by
  exact atualizar_aluno_failed_date_writes_nothing wStore 1
    [("nome", .jstr "Outro"), ("data_nascimento", .jstr "31-12-2010x")]
    wAluno (.jstr "31-12-2010x") rfl rfl (by decide)

/-- C4: in every reachable state every stored student's status is one of
the two enum values MATRICULADO / DESMATRICULADO: creation (which never
reads a `status` key) stores the default MATRICULADO, and both student
operations — including PUT /alunos/id with an arbitrary `status` in the
body, which the enum column rejects at commit, rolling the transaction
back — preserve the invariant whatever the request contains. -/
theorem aluno_status_invariant (st : Store)
    (hinv : ∀ a ∈ st.alunos, alunoStatusOk a = true) :
    (∀ data st2 ex, criar_aluno st data = (st2, ex) →
      ∀ a ∈ st2.alunos, alunoStatusOk a = true) ∧
    (∀ aid data st2 ex, atualizar_aluno st aid data = (st2, ex) →
      ∀ a ∈ st2.alunos, alunoStatusOk a = true) ∧
    (∀ data st2 r, criar_aluno st data = (st2, .ok r) → r.1 = 201 →
      ∃ aN, st2.alunos = st.alunos ++ [aN] ∧
        aN.status = .jstr "MATRICULADO") := by
  refine ⟨?_, ?_, ?_⟩
  · intro data st2 ex h
    rcases criar_aluno_state st data st2 ex h with rfl | ⟨hok, _⟩
    · exact hinv
    · exact storeOk_alunos st2 hok
  · intro aid data st2 ex h
    rcases atualizar_aluno_state st aid data st2 ex h with rfl | hok
    · exact hinv
    · exact storeOk_alunos st2 hok
  · intro data st2 r h hr
    exact criar_aluno_created st data st2 r h hr

/-- Witness for C4: a PUT carrying the invalid status "BANANA" leaves
every stored status valid (the commit fails), and a POST without a
status key creates the student with the default MATRICULADO. -/
theorem aluno_status_invariant_witness :
    (((atualizar_aluno wStore 1
        (.jobj [("status", .jstr "BANANA")])).1.alunos).all alunoStatusOk = true) ∧
      ∃ aN, ((criar_aluno wStore
          (.jobj [("nome", .jstr "Bia"), ("data_nascimento", .jstr "2012-05-06"),
            ("classe_id", .jint 1)])).1.alunos = wStore.alunos ++ [aN] ∧
        aN.status = .jstr "MATRICULADO") := by
  have h := aluno_status_invariant wStore (by decide)
  constructor
  · apply List.all_eq_true.mpr
    intro a ha
    exact h.2.1 1 (.jobj [("status", .jstr "BANANA")]) _ _ rfl a ha
  · exact h.2.2 (.jobj [("nome", .jstr "Bia"), ("data_nascimento", .jstr "2012-05-06"),
      ("classe_id", .jint 1)]) _ (201, alunoToDict ⟨2, .jstr "Bia", ⟨2012, 5, 6⟩,
        .jstr "MATRICULADO", .jint 1⟩) rfl rfl

theorem storeOk_append_aluno (st : Store) (aN : Aluno)
    (hok : storeOk st = true) (hs : alunoStatusOk aN = true)
    (hf : fkOk aN.classe_id st.classes = true) :
    storeOk { st with alunos := st.alunos ++ [aN] } = true := by
  unfold storeOk at hok ⊢
  simp only [Bool.and_eq_true] at hok
  obtain ⟨⟨⟨hA, hF⟩, hN⟩, hU⟩ := hok
  simp [List.all_append, hA, hF, hN, hU, hs, hf]

/-- C9: POST /alunos validates only the presence of the required keys,
not their non-emptiness: a body whose `nome` is the empty string passes
the missing-field check and creates a student with an empty name,
whereas POST /classes and POST /register use truthiness checks and
reject required fields that are present but empty strings. -/
theorem empty_name_validation_asymmetry (st : Store)
    (fs gs hs : List (String × JVal)) (ds : String) (d : Date) (cid : Int)
    (hnome : objGet fs "nome" = some (.jstr ""))
    (hdn : objGet fs "data_nascimento" = some (.jstr ds))
    (hd : parseDateStr ds = some d)
    (hcid : objGet fs "classe_id" = some (.jint cid))
    (hfk : st.classes.any (fun c => c.id == cid) = true)
    (hok : storeOk st = true) :
    (∃ aN, criar_aluno st (.jobj fs) =
        ({ st with alunos := st.alunos ++ [aN] }, .ok (201, alunoToDict aN)) ∧
      aN.nome = .jstr "") ∧
    (objGet gs "nome" = some (.jstr "") →
      criar_classe st (.jobj gs) =
        (st, .ok (400, msgBody "Campos \"nome\" e \"professor\" são obrigatórios"))) ∧
    (objGet hs "username" = some (.jstr "") →
      register st (.jobj hs) =
        (st, .ok (400, msgBody "Username e password são obrigatórios"))) := by
  refine ⟨?_, ?_, ?_⟩
  · refine ⟨⟨nextId (st.alunos.map (fun x => x.id)), .jstr "", d,
      .jstr "MATRICULADO", .jint cid⟩, ?_, rfl⟩
    have hfk2 : fkOk (.jint cid) st.classes = true := by simpa [fkOk] using hfk
    have hcommit := storeOk_append_aluno st
      ⟨nextId (st.alunos.map (fun x => x.id)), .jstr "", d,
        .jstr "MATRICULADO", .jint cid⟩ hok rfl hfk2
    simp [criar_aluno, pyIn, pyGetItem, hnome, hdn, hcid, parseDateJ, hd,
      commitResp, hcommit]
  · intro hgn
    have hne := objGet_some_not_nil gs "nome" _ hgn
    simp [criar_classe, pyTruthy, hne, pyDictGet, hgn, pyTruthyOpt]
  · intro hhn
    have hne := objGet_some_not_nil hs "username" _ hhn
    simp [register, pyTruthy, hne, pyDictGet, hhn, pyTruthyOpt]

/-- Witness for C9: with the sample store, an empty `nome` passes
POST /alunos (201, empty name stored) while an empty `nome` fails
POST /classes and an empty `username` fails POST /register. -/
theorem empty_name_validation_asymmetry_witness :
    (∃ aN, criar_aluno wStore
        (.jobj [("nome", .jstr ""), ("data_nascimento", .jstr "2010-01-01"),
          ("classe_id", .jint 1)]) =
        ({ wStore with alunos := wStore.alunos ++ [aN] }, .ok (201, alunoToDict aN)) ∧
      aN.nome = .jstr "") ∧
    criar_classe wStore (.jobj [("nome", .jstr ""), ("professor", .jstr "X")]) =
      (wStore, .ok (400, msgBody "Campos \"nome\" e \"professor\" são obrigatórios")) ∧
    register wStore (.jobj [("username", .jstr ""), ("password", .jstr "x")]) =
      (wStore, .ok (400, msgBody "Username e password são obrigatórios")) := by
  have h := empty_name_validation_asymmetry wStore
    [("nome", .jstr ""), ("data_nascimento", .jstr "2010-01-01"), ("classe_id", .jint 1)]
    [("nome", .jstr ""), ("professor", .jstr "X")]
    [("username", .jstr ""), ("password", .jstr "x")]
    "2010-01-01" ⟨2010, 1, 1⟩ 1 rfl rfl (by decide) rfl (by decide) (by decide)
  exact ⟨h.1, h.2.1 rfl, h.2.2 rfl⟩

theorem find?_id_eq {α : Type} (f : α → Int) (l : List α) (cid : Int) (c : α)
    (h : l.find? (fun x => f x == cid) = some c) : f c = cid := by
  have := List.find?_some h
  simpa using this

/-- C6: PUT /classes/id and PUT /frequencias/id apply exactly the fields
present in the body: on a successful update every field named in the
body takes the supplied value (the date field its parsed value) and
every other field keeps its prior value, while the rest of the store is
untouched; with an empty partial `{}` the store is left completely
unchanged. -/
theorem update_touches_only_present_fields (st : Store) (cid fid : Int)
    (fs gs : List (String × JVal))
    (hndC : (st.classes.map (fun c => c.id)).Nodup)
    (hndF : (st.freqs.map (fun f => f.id)).Nodup) :
    (∀ st2 r, atualizar_classe st cid (.jobj fs) = (st2, .ok r) → r.1 = 200 →
      ∃ c c2, findClasse st.classes cid = some c ∧
        findClasse st2.classes cid = some c2 ∧
        c2.id = c.id ∧
        c2.nome = (objGet fs "nome").getD c.nome ∧
        c2.professor = (objGet fs "professor").getD c.professor ∧
        st2.users = st.users ∧ st2.alunos = st.alunos ∧ st2.freqs = st.freqs) ∧
    (∀ st2 ex, atualizar_classe st cid (.jobj []) = (st2, ex) → st2 = st) ∧
    (∀ st2 r, atualizar_frequencia st fid (.jobj gs) = (st2, .ok r) → r.1 = 200 →
      ∃ f f2, findFreq st.freqs fid = some f ∧
        findFreq st2.freqs fid = some f2 ∧
        f2.id = f.id ∧
        f2.classe_id = (objGet gs "classe_id").getD f.classe_id ∧
        (objGet gs "data" = none → f2.data = f.data) ∧
        (∀ v, objGet gs "data" = some v → parseDateJ v = some f2.data) ∧
        f2.total_biblia = (objGet gs "total_biblia").getD f.total_biblia ∧
        f2.total_present = (objGet gs "total_present").getD f.total_present ∧
        f2.total_absent = (objGet gs "total_absent").getD f.total_absent ∧
        f2.total_visitors = (objGet gs "total_visitors").getD f.total_visitors ∧
        f2.total_general = (objGet gs "total_general").getD f.total_general ∧
        f2.presencas = (objGet gs "presencas").getD f.presencas ∧
        st2.users = st.users ∧ st2.alunos = st.alunos ∧ st2.classes = st.classes) ∧
    (∀ st2 ex, atualizar_frequencia st fid (.jobj []) = (st2, ex) → st2 = st) := by
  refine ⟨?_, ?_, ?_, ?_⟩
  · intro st2 r h hr
    cases hfind : findClasse st.classes cid with
    | none =>
      rw [show atualizar_classe st cid (.jobj fs) = (st, .ok resp404) from by
        simp [atualizar_classe, hfind]] at h
      injection h with h1 h2
      injection h2 with h3
      rw [← h3] at hr
      simp [resp404] at hr
    | some c =>
      rw [show atualizar_classe st cid (.jobj fs) =
          commitResp st
            { st with classes := replaceClasse st.classes cid (classeUpd c fs) }
            (200, classeToDict (classeUpd c fs)) from by
        simp [atualizar_classe, hfind, classeApply_obj]] at h
      have hfind2 : st.classes.find? (fun x => x.id == cid) = some c := hfind
      rcases commitResp_cases _ _ _ _ _ h with ⟨hok, rfl, hr2⟩ | ⟨_, _, hbad⟩
      · refine ⟨c, classeUpd c fs, rfl, ?_, rfl, rfl, rfl, rfl, rfl, rfl⟩
        have hid : c.id = cid := find?_id_eq (fun x => x.id) st.classes cid c hfind2
        show (replaceClasse st.classes cid _).find? (fun x => x.id == cid) = _
        exact find?_replace (fun x => x.id) cid c (classeUpd c fs) hid st.classes hfind2
      · cases hbad
  · intro st2 ex h
    cases hfind : findClasse st.classes cid with
    | none =>
      rw [show atualizar_classe st cid (.jobj []) = (st, .ok resp404) from by
        simp [atualizar_classe, hfind]] at h
      injection h with h1 h2
      exact h1.symm
    | some c =>
      rw [show atualizar_classe st cid (.jobj []) =
          commitResp st
            { st with classes := replaceClasse st.classes cid (classeUpd c []) }
            (200, classeToDict (classeUpd c [])) from by
        simp [atualizar_classe, hfind, classeApply_obj]] at h
      have hfind2 : st.classes.find? (fun x => x.id == cid) =
          some (classeUpd c []) := hfind
      have hrepl : replaceClasse st.classes cid (classeUpd c []) = st.classes := by
        show st.classes.map (fun x => if x.id == cid then classeUpd c [] else x) =
          st.classes
        exact map_replace_self (fun x => x.id) cid (classeUpd c []) st.classes
          hfind2 hndC
      rcases commitResp_cases _ _ _ _ _ h with ⟨_, rfl, _⟩ | ⟨_, rfl, _⟩
      · show { st with classes := replaceClasse st.classes cid (classeUpd c []) } = st
        rw [hrepl]
      · rfl
  · intro st2 r h hr
    cases hfind : findFreq st.freqs fid with
    | none =>
      rw [show atualizar_frequencia st fid (.jobj gs) = (st, .ok resp404) from by
        simp [atualizar_frequencia, hfind]] at h
      injection h with h1 h2
      injection h2 with h3
      rw [← h3] at hr
      simp [resp404] at hr
    | some f =>
      cases hgd : objGet gs "data" with
      | none =>
        rw [show atualizar_frequencia st fid (.jobj gs) =
            commitResp st
              { st with freqs := replaceFreq st.freqs fid (freqUpd f gs f.data) }
              (200, freqToDict (freqUpd f gs f.data)) from by
          simp [atualizar_frequencia, hfind, freqApply_obj, hgd]] at h
        have hfind2 : st.freqs.find? (fun x => x.id == fid) = some f := hfind
        rcases commitResp_cases _ _ _ _ _ h with ⟨hok, rfl, hr2⟩ | ⟨_, _, hbad⟩
        · refine ⟨f, freqUpd f gs f.data, rfl, ?_, rfl, rfl, fun _ => rfl, ?_,
            rfl, rfl, rfl, rfl, rfl, rfl, rfl, rfl, rfl⟩
          · have hid : f.id = fid := find?_id_eq (fun x => x.id) st.freqs fid f hfind2
            show (replaceFreq st.freqs fid _).find? (fun x => x.id == fid) = _
            exact find?_replace (fun x => x.id) fid f (freqUpd f gs f.data) hid
              st.freqs hfind2
          · intro v hv
            cases hv
        · cases hbad
      | some v =>
        cases hpv : parseDateJ v with
        | none =>
          rw [show atualizar_frequencia st fid (.jobj gs) =
              (st, .ok (400, errBody "Formato de data inválido" (dateErrDetail v)))
              from by
            simp [atualizar_frequencia, hfind, freqApply_obj, hgd, hpv]] at h
          injection h with h1 h2
          injection h2 with h3
          rw [← h3] at hr
          simp at hr
        | some d =>
          rw [show atualizar_frequencia st fid (.jobj gs) =
              commitResp st
                { st with freqs := replaceFreq st.freqs fid (freqUpd f gs d) }
                (200, freqToDict (freqUpd f gs d)) from by
            simp [atualizar_frequencia, hfind, freqApply_obj, hgd, hpv]] at h
          have hfind2 : st.freqs.find? (fun x => x.id == fid) = some f := hfind
          rcases commitResp_cases _ _ _ _ _ h with ⟨hok, rfl, hr2⟩ | ⟨_, _, hbad⟩
          · refine ⟨f, freqUpd f gs d, rfl, ?_, rfl, rfl, ?_, ?_,
              rfl, rfl, rfl, rfl, rfl, rfl, rfl, rfl, rfl⟩
            · have hid : f.id = fid := find?_id_eq (fun x => x.id) st.freqs fid f hfind2
              show (replaceFreq st.freqs fid _).find? (fun x => x.id == fid) = _
              exact find?_replace (fun x => x.id) fid f (freqUpd f gs d) hid
                st.freqs hfind2
            · intro hnone
              cases hnone
            · intro v2 hv2
              injection hv2 with hveq
              rw [← hveq]
              exact hpv
          · cases hbad
  · intro st2 ex h
    cases hfind : findFreq st.freqs fid with
    | none =>
      rw [show atualizar_frequencia st fid (.jobj []) = (st, .ok resp404) from by
        simp [atualizar_frequencia, hfind]] at h
      injection h with h1 h2
      exact h1.symm
    | some f =>
      rw [show atualizar_frequencia st fid (.jobj []) =
          commitResp st
            { st with freqs := replaceFreq st.freqs fid (freqUpd f [] f.data) }
            (200, freqToDict (freqUpd f [] f.data)) from by
        simp [atualizar_frequencia, hfind, freqApply_obj, objGet, List.find?]] at h
      have hfind2 : st.freqs.find? (fun x => x.id == fid) =
          some (freqUpd f [] f.data) := hfind
      have hrepl : replaceFreq st.freqs fid (freqUpd f [] f.data) = st.freqs := by
        show st.freqs.map (fun x => if x.id == fid then freqUpd f [] f.data else x) =
          st.freqs
        exact map_replace_self (fun x => x.id) fid (freqUpd f [] f.data) st.freqs
          hfind2 hndF
      rcases commitResp_cases _ _ _ _ _ h with ⟨_, rfl, _⟩ | ⟨_, rfl, _⟩
      · show { st with freqs := replaceFreq st.freqs fid (freqUpd f [] f.data) } = st
        rw [hrepl]
      · rfl

/-- Witness for C6: updating class 1 with only `nome` changes exactly
the name, updating record 1 with only `total_present` changes exactly
that tally, and the empty partial `{}` leaves the store unchanged for
both entities. -/
theorem update_touches_only_present_fields_witness :
    (∃ c c2, findClasse wStore.classes 1 = some c ∧
      findClasse (atualizar_classe wStore 1
        (.jobj [("nome", .jstr "Kids B")])).1.classes 1 = some c2 ∧
      c2.id = c.id ∧
      c2.nome = (objGet [("nome", .jstr "Kids B")] "nome").getD c.nome ∧
      c2.professor = (objGet [("nome", .jstr "Kids B")] "professor").getD c.professor ∧
      (atualizar_classe wStore 1 (.jobj [("nome", .jstr "Kids B")])).1.users = wStore.users ∧
      (atualizar_classe wStore 1 (.jobj [("nome", .jstr "Kids B")])).1.alunos = wStore.alunos ∧
      (atualizar_classe wStore 1 (.jobj [("nome", .jstr "Kids B")])).1.freqs = wStore.freqs) ∧
    (atualizar_classe wStore 1 (.jobj [])).1 = wStore ∧
    (∃ f f2, findFreq wStore.freqs 1 = some f ∧
      findFreq (atualizar_frequencia wStore 1
        (.jobj [("total_present", .jint 9)])).1.freqs 1 = some f2 ∧
      f2.id = f.id ∧
      f2.classe_id = (objGet [("total_present", .jint 9)] "classe_id").getD f.classe_id ∧
      (objGet [("total_present", .jint 9)] "data" = none → f2.data = f.data) ∧
      (∀ v, objGet [("total_present", .jint 9)] "data" = some v →
        parseDateJ v = some f2.data) ∧
      f2.total_biblia = (objGet [("total_present", .jint 9)] "total_biblia").getD f.total_biblia ∧
      f2.total_present = (objGet [("total_present", .jint 9)] "total_present").getD f.total_present ∧
      f2.total_absent = (objGet [("total_present", .jint 9)] "total_absent").getD f.total_absent ∧
      f2.total_visitors = (objGet [("total_present", .jint 9)] "total_visitors").getD f.total_visitors ∧
      f2.total_general = (objGet [("total_present", .jint 9)] "total_general").getD f.total_general ∧
      f2.presencas = (objGet [("total_present", .jint 9)] "presencas").getD f.presencas ∧
      (atualizar_frequencia wStore 1 (.jobj [("total_present", .jint 9)])).1.users = wStore.users ∧
      (atualizar_frequencia wStore 1 (.jobj [("total_present", .jint 9)])).1.alunos = wStore.alunos ∧
      (atualizar_frequencia wStore 1 (.jobj [("total_present", .jint 9)])).1.classes = wStore.classes) ∧
    (atualizar_frequencia wStore 1 (.jobj [])).1 = wStore := by
  have h := update_touches_only_present_fields wStore 1 1
    [("nome", .jstr "Kids B")] [("total_present", .jint 9)] (by decide) (by decide)
  refine ⟨?_, ?_, ?_, ?_⟩
  · exact h.1 (atualizar_classe wStore 1 (.jobj [("nome", .jstr "Kids B")])).1
      (200, classeToDict (classeUpd wClasse [("nome", .jstr "Kids B")])) rfl rfl
  · exact h.2.1 (atualizar_classe wStore 1 (.jobj [])).1
      (atualizar_classe wStore 1 (.jobj [])).2 rfl
  · exact h.2.2.1 (atualizar_frequencia wStore 1 (.jobj [("total_present", .jint 9)])).1
      (200, freqToDict (freqUpd wFreqDup [("total_present", .jint 9)] wFreqDup.data))
      rfl rfl
  · exact h.2.2.2 (atualizar_frequencia wStore 1 (.jobj [])).1
      (atualizar_frequencia wStore 1 (.jobj [])).2 rfl
